import Mathlib

/-!
Shallow embedding of the libSQL vector-search sources
(src/libsql-sqlite3/src/vector.c, vector_diskann.c, vectorInt.h).

Floating-point elements never undergo arithmetic on any code path embedded
here: the C code moves f32 values around purely by type-punning them to u32
bit patterns (serializeF32 / deserializeF32 in vector.c).  Every f32 element
is therefore represented by its 32-bit IEEE-754 bit pattern, a Nat below
2^32.  Bytes are Nats below 256 (enforced with % 256 at every store, like
the C truncation to unsigned char).
-/

/-! ## Byte codec (vector.c lines 39-67) -/

/-- Embeds serializeU32 (vector.c:39): the four little-endian bytes of a u32.
The C stores num & 0xFF, (num >> 8) & 0xFF, (num >> 16) & 0xFF,
(num >> 24) & 0xFF; the shift-and-mask pairs are rendered as division by
256, 65536, 16777216 followed by % 256. -/
def serializeU32 (num : Nat) : List Nat :=
  [num % 256, num / 256 % 256, num / 65536 % 256, num / 16777216 % 256]

/-- Embeds deserializeU32 (vector.c:47):
(mem[3] << 24) | (mem[2] << 16) | (mem[1] << 8) | mem[0].
The or-ed fields occupy disjoint bit ranges whenever every byte is below
256 (true of every buffer this embedding builds), so the bitwise or is
rendered as addition. -/
def deserializeU32 (mem : List Nat) : Nat :=
  mem.getD 3 0 * 16777216 + mem.getD 2 0 * 65536 + mem.getD 1 0 * 256 + mem.getD 0 0

/-- Embeds serializeF32 (vector.c:51): the C type-puns the float to its u32
bit pattern and stores it little-endian; here the element already is that
bit pattern. -/
def serializeF32 (bits : Nat) : List Nat :=
  [bits % 256, bits / 256 % 256, bits / 65536 % 256, bits / 16777216 % 256]

/-- Embeds deserializeF32 (vector.c:60): rebuilds the u32 bit pattern
little-endian (the C then type-puns it back to float). -/
def deserializeF32 (mem : List Nat) : Nat :=
  mem.getD 0 0 + mem.getD 1 0 * 256 + mem.getD 2 0 * 65536 + mem.getD 3 0 * 16777216

/-! ## Vector values (vector.c) -/

def MAX_VECTOR_SZ : Nat := 16000

def MAX_FLOAT_CHAR_SZ : Nat := 1024

/-- The distinct failure messages of vectorParse / vectorParseText /
vectorParseBlob (vector.c), abstracted from their snprintf texts. -/
inductive ParseErr
  | notText
  | missingOpenBracket
  | floatTooBig
  | invalidNumber
  | tooLarge
  | missingCloseBracket
  | notBlob
  | blobTooLarge
  | notTextOrBlob
deriving DecidableEq

/-- Result of the vector parsing routines.  The C functions return a size_t
(the element count on success, -1 on failure) and SOME failure paths call
sqlite3_result_error on the SQL context while others only format the message
into a local buffer and return -1 without reporting it; the two constructors
errReported / errSilent record that difference (vector.c:150-196 versus the
goto error paths). -/
inductive ParseResult
  | ok (elems : List Nat)
  | errReported (e : ParseErr)
  | errSilent (e : ParseErr)
deriving DecidableEq

/-- Embeds vectorSerialize (vector.c:257-282): 4-byte little-endian element
count followed by each element as a little-endian f32 bit pattern.  (The SQL
result plumbing and the allocation-failure branch are outside the claims.) -/
def vectorSerialize (v : List Nat) : List Nat :=
  serializeU32 v.length ++ (v.map serializeF32).flatten

/-- Embeds vectorParseBlob (vector.c:198-238) on a blob payload.  The
SQLITE_BLOB type test and NULL-blob test live in vectorParse below / are
vacuous for a materialized byte list; every error path of the C function
goes through goto error, i.e. is reported to the SQL context. -/
def vectorParseBlob (blob : List Nat) : ParseResult :=
  if MAX_VECTOR_SZ < deserializeU32 blob then ParseResult.errReported ParseErr.blobTooLarge
  else
    ParseResult.ok
      ((List.range (deserializeU32 blob)).map fun i => deserializeF32 (blob.drop (4 + 4 * i)))

/-- Embeds sqlite3Isspace for the characters the parser can meet: space,
horizontal tab, newline, vertical tab, form feed, carriage return. -/
def sqlite3Isspace (c : Char) : Bool :=
  c == ' ' || c == '\t' || c == '\n' || c == '\x0b' || c == '\x0c' || c == '\r'

/-- Helper for the decimal grammar below: split off leading decimal digits,
returning how many and the remainder. -/
def countDigits : List Char → Nat × List Char
  | [] => (0, [])
  | c :: rest =>
    if c.isDigit then ((countDigits rest).1 + 1, (countDigits rest).2)
    else (0, c :: rest)

/-- Helper for the decimal grammar below: a nonempty all-digit tail. -/
def digitsOnly (l : List Char) : Bool :=
  !l.isEmpty && l.all Char.isDigit

/-- Helper for the decimal grammar below: an optional exponent part ending
the token. -/
def expOk : List Char → Bool
  | [] => true
  | c :: rest =>
    if c = 'e' ∨ c = 'E' then
      match rest with
      | [] => false
      | s :: r2 => if s = '+' ∨ s = '-' then digitsOnly r2 else digitsOnly rest
    else false

/-- Modelled from the spec: sqlite3AtoF belongs to the SQLite core and is not
under src/; the spec says element tokens are "parsed as decimal floating
point".  Only success or failure of the conversion matters to any claim, so
the accepted grammar is sign? digits [. digits] [exponent] with at least one
digit, and the numeric value is represented opaquely by the bit pattern 0. -/
def sqlite3AtoF (tok : List Char) : Option Nat :=
  let t := match tok with
    | [] => ([] : List Char)
    | c :: r => if c = '+' ∨ c = '-' then r else c :: r
  let p1 := countDigits t
  let p2 := match p1.2 with
    | '.' :: r2 => (p1.1 + (countDigits r2).1, (countDigits r2).2)
    | _ => (p1.1, p1.2)
  if (p2.1 != 0) && expOk p2.2 then some 0 else none

/-- Embeds the tail of vectorParseText (vector.c:176-192): flush the pending
element buffer, then require the stopping character to be the closing
bracket.  remaining is where the main loop stopped: either [] (the C string
terminator was met) or a list starting with the ] that ended the loop. -/
def parseTextEnd (remaining : List Char) (elems : List Nat) : ParseResult :=
  match remaining with
  | ']' :: _ => ParseResult.ok elems
  | _ => ParseResult.errSilent ParseErr.missingCloseBracket

/-- Embeds vector.c:176-190: the bufidx != 0 flush followed by the closing
bracket check.  Note every failure here returns -1 WITHOUT calling
sqlite3_result_error (no goto error), hence errSilent. -/
def parseTextFinish (remaining : List Char) (elBuf : List Char) (elems : List Nat) :
    ParseResult :=
  if elBuf.isEmpty then parseTextEnd remaining elems
  else
    match sqlite3AtoF elBuf with
    | none => ParseResult.errSilent ParseErr.invalidNumber
    | some el =>
      if MAX_VECTOR_SZ ≤ (elems ++ [el]).length then ParseResult.errSilent ParseErr.tooLarge
      else parseTextEnd remaining (elems ++ [el])

/-- Embeds the main while loop of vectorParseText (vector.c:150-175).
elBuf accumulates the current element token (bufidx is its length), elems
the parsed elements (vecidx is its length).  Both limit checks sit after the
store, as in the C (bufidx > MAX_FLOAT_CHAR_SZ, vecidx >= MAX_VECTOR_SZ),
and both return -1 without reporting the formatted message. -/
def parseTextLoop : List Char → List Char → List Nat → ParseResult
  | [], elBuf, elems => parseTextFinish [] elBuf elems
  | c :: rest, elBuf, elems =>
    if c = ']' then parseTextFinish (c :: rest) elBuf elems
    else if sqlite3Isspace c then parseTextLoop rest elBuf elems
    else if c ≠ ',' then
      if MAX_FLOAT_CHAR_SZ < (elBuf ++ [c]).length then
        ParseResult.errSilent ParseErr.floatTooBig
      else parseTextLoop rest (elBuf ++ [c]) elems
    else
      match sqlite3AtoF elBuf with
      | none => ParseResult.errSilent ParseErr.invalidNumber
      | some el =>
        if MAX_VECTOR_SZ ≤ (elems ++ [el]).length then ParseResult.errSilent ParseErr.tooLarge
        else parseTextLoop rest [] (elems ++ [el])

/-- Embeds vectorParseText (vector.c:117-196) on the text bytes.  Leading
whitespace is skipped; the first remaining character must be the opening
bracket, otherwise the goto error path reports the failure.  (The
sqlite3_value_text NULL return that makes the C return 0 only happens for a
NULL SQL value, which the SQLITE_TEXT type check already excludes.) -/
def vectorParseText (s : List Char) : ParseResult :=
  match s.dropWhile sqlite3Isspace with
  | [] => ParseResult.errReported ParseErr.missingOpenBracket
  | c :: rest =>
    if c = '[' then parseTextLoop rest [] []
    else ParseResult.errReported ParseErr.missingOpenBracket

/-- An SQL argument value as vectorParse (vector.c:240-255) discriminates it. -/
inductive SqlValue
  | text (s : List Char)
  | blob (b : List Nat)
  | other
deriving DecidableEq

/-- Embeds vectorParse (vector.c:240-255). -/
def vectorParse (arg : SqlValue) : ParseResult :=
  match arg with
  | SqlValue.blob b => vectorParseBlob b
  | SqlValue.text s => vectorParseText s
  | SqlValue.other => ParseResult.errReported ParseErr.notTextOrBlob

/-- What the SQL function leaves in the context: a blob result, an error, or
nothing (SQL NULL). -/
inductive FuncResult
  | blob (bytes : List Nat)
  | error (e : ParseErr)
  | null
deriving DecidableEq

/-- Embeds vectorFunc (vector.c:410-426).  vectorParse returns size_t and
its failure paths return -1, which converts to SIZE_MAX, so the test
vectorParse(...) > 0 is TRUE on every parse failure; vectorSerialize then
runs on a vector whose len field is still 0 (vectorInit set it), producing
the 4-byte blob of the empty vector.  When the failure had already called
sqlite3_result_error the statement still surfaces that error (the SQL
context keeps its error flag, per the host engine semantics); when the
failure was silent, the empty-vector blob is the visible result.  A parse
returning 0 (dimension 0) sets no result at all, i.e. SQL NULL. -/
def vectorFunc (arg : SqlValue) : FuncResult :=
  match vectorParse arg with
  | ParseResult.ok elems =>
    if 0 < elems.length then FuncResult.blob (vectorSerialize elems) else FuncResult.null
  | ParseResult.errReported e => FuncResult.error e
  | ParseResult.errSilent _ => FuncResult.blob (vectorSerialize [])

/-! ## DiskANN (vector_diskann.c) -/

def DISKANN_BLOCK_SIZE : Nat := 4096

def DISKANN_BLOCK_SIZE_SHIFT : Nat := 9

/-- sizeof(u64), vector_diskann.c:111 -/
def VECTOR_METADATA_SIZE : Nat := 8

/-- sizeof(struct Metadata) = sizeof(u64) + sizeof(u64), vector_diskann.c:112 -/
def NEIGHBOUR_METADATA_SIZE : Nat := 16

def VECTOR_TYPE_F32 : Nat := 0

def SQLITE_OK : Nat := 0

def SQLITE_IOERR : Nat := 10

/-- Embeds struct DiskAnnHeader (vector_diskann.c:59-67). -/
structure DiskAnnHeader where
  nMagic : Nat
  nBlockSize : Nat
  nVectorType : Nat
  nVectorDims : Nat
  similarityFunction : Nat
  entryVectorOffset : Nat
  firstFreeOffset : Nat
deriving DecidableEq

/-- Embeds struct DiskAnnIndex (vector_diskann.c:69-73): the cached header
and the cached file size (the file handle is the IndexFile state below). -/
structure DiskAnnIndex where
  header : DiskAnnHeader
  nFileSize : Nat
deriving DecidableEq

/-- Embeds blockSize (vector_diskann.c:114): header.nBlockSize << 9. -/
def blockSize (pIndex : DiskAnnIndex) : Nat :=
  pIndex.header.nBlockSize <<< DISKANN_BLOCK_SIZE_SHIFT

/-- Embeds vectorSize (vector_diskann.c:118): sizeof(u32) + dims *
sizeof(float).  (Its assert on the F32 vector type is compiled out under
NDEBUG and does not change the value.) -/
def vectorSize (pIndex : DiskAnnIndex) : Nat :=
  4 + pIndex.header.nVectorDims * 4

/-- Embeds the local maxNeighbours computation inside
neighbourMetadataOffset (vector_diskann.c:131): (blockSize - vectorSize -
VECTOR_METADATA_SIZE) / (vectorSize + NEIGHBOUR_METADATA_SIZE).  Note the
2-byte neighbour count is NOT subtracted. -/
def maxNeighbours (pIndex : DiskAnnIndex) : Nat :=
  (blockSize pIndex - vectorSize pIndex - VECTOR_METADATA_SIZE) /
    (vectorSize pIndex + NEIGHBOUR_METADATA_SIZE)

/-- Embeds neighbourMetadataOffset (vector_diskann.c:123-133): vectorSize +
VECTOR_METADATA_SIZE + maxNeighbours * vectorSize.  Note the 2-byte
neighbour count is NOT added, although diskAnnWriteVector lays it down
between the id and the neighbour vectors. -/
def neighbourMetadataOffset (pIndex : DiskAnnIndex) : Nat :=
  vectorSize pIndex + VECTOR_METADATA_SIZE + maxNeighbours pIndex * vectorSize pIndex

/-- Modelled from the spec (section 4.3), for comparison with the code:
maxNeighbors M = floor((blockBytes - vectorBlobBytes - idBytes -
neighborCountBytes) / (vectorBlobBytes + 16)). -/
def spec_maxNeighbors (pIndex : DiskAnnIndex) : Nat :=
  (blockSize pIndex - vectorSize pIndex - 8 - 2) / (vectorSize pIndex + 16)

/-- Modelled from the spec (section 4.3), for comparison with the code: the
neighbor-metadata region begins at vectorBlobBytes + idBytes +
neighborCountBytes + M * vectorBlobBytes. -/
def spec_neighbourMetadataOffset (pIndex : DiskAnnIndex) : Nat :=
  vectorSize pIndex + 8 + 2 + spec_maxNeighbors pIndex * vectorSize pIndex

/-- Embeds struct VectorNode (vector_diskann.c:75-81) as read back from
disk; the visited flag and list link live only inside the search, which the
embedding resolves below. -/
structure VectorNode where
  vec : List Nat
  id : Nat
  offset : Nat
deriving DecidableEq

/-- The on-disk side of the index: the header block as last written (the C
writes the raw 32-byte struct at offset 0; claims only inspect its fields,
so it is kept at field level), the raw bytes of the node-block region, and
the true file size in bytes (sqlite3OsFileSize). -/
structure IndexFile where
  headerOnDisk : DiskAnnHeader
  bytes : Nat → Nat
  actualSize : Nat

/-- A single store blockData[pos] = b, truncated to a byte like the C char
assignment. -/
def writeByte (buf : Nat → Nat) (pos b : Nat) : Nat → Nat :=
  fun i => if i = pos then b % 256 else buf i

/-- Sequential byte stores blockData[off++] = b, as diskAnnWriteVector does. -/
def writeBytesSeq : (Nat → Nat) → Nat → List Nat → (Nat → Nat)
  | buf, _, [] => buf
  | buf, pos, b :: bs => writeBytesSeq (writeByte buf pos b) (pos + 1) bs

/-- The eight little-endian bytes of a u64, as the eight single-byte stores
blockData[off++] = id >> 8k in diskAnnWriteVector (vector_diskann.c:213-220). -/
def u64le (num : Nat) : List Nat :=
  [num % 256, num / 256 % 256, num / 65536 % 256, num / 16777216 % 256,
    num / 4294967296 % 256, num / 1099511627776 % 256,
    num / 281474976710656 % 256, num / 72057594037927936 % 256]

/-- The two little-endian bytes of the neighbour count
(vector_diskann.c:222-223). -/
def u16le (num : Nat) : List Nat :=
  [num % 256, num / 256 % 256]

/-- Modelled from the spec: vectorSerializeToBlob is declared in vectorInt.h
but its definition is not under src/; per spec section 6 a vector blob is the
4-byte little-endian element count followed by the elements as little-endian
f32 bit patterns, and the function returns the number of bytes written
(4 + 4n), here recovered as the length of this list. -/
def vectorSerializeToBlob (v : List Nat) : List Nat :=
  serializeU32 v.length ++ (v.map serializeF32).flatten

/-- The neighbour-blob stores of diskAnnWriteVector (vector_diskann.c:224-226):
each neighbour vector serialized sequentially, off advancing by the bytes
written. -/
def writeNeighbourBlobs : (Nat → Nat) → Nat → List (List Nat) → (Nat → Nat)
  | buf, _, [] => buf
  | buf, off, v :: vs =>
    writeNeighbourBlobs (writeBytesSeq buf off (vectorSerializeToBlob v))
      (off + (vectorSerializeToBlob v).length) vs

/-- The neighbour-metadata stores of diskAnnWriteVector
(vector_diskann.c:228-245): 8 id bytes then 8 offset bytes per entry. -/
def writeMetadataSeq : (Nat → Nat) → Nat → List (Nat × Nat) → (Nat → Nat)
  | buf, _, [] => buf
  | buf, off, m :: ms =>
    writeMetadataSeq (writeBytesSeq buf off (u64le m.1 ++ u64le m.2)) (off + 16) ms

/-- The 4096-byte block buffer diskAnnWriteVector assembles
(vector_diskann.c:207-245): memset to 0, own vector blob at 0, own id,
neighbour count, the neighbour blobs from off+10 onward, then the metadata
records starting at neighbourMetadataOffset. -/
def diskAnnBlockData (pIndex : DiskAnnIndex) (pVec : List Nat) (id : Nat)
    (aNeighbours : List (List Nat)) (aNeighbourMetadata : List (Nat × Nat)) : Nat → Nat :=
  let b0 : Nat → Nat := fun _ => 0
  let b1 := writeBytesSeq b0 0 (vectorSerializeToBlob pVec)
  let off := (vectorSerializeToBlob pVec).length
  let b2 := writeBytesSeq b1 off (u64le id)
  let b3 := writeBytesSeq b2 (off + 8) (u16le aNeighbours.length)
  let b4 := writeNeighbourBlobs b3 (off + 10) aNeighbours
  writeMetadataSeq b4 (neighbourMetadataOffset pIndex) aNeighbourMetadata

/-- Embeds sqlite3OsWrite of amt bytes at offset off: the byte range is
overlaid and the true file size grows to cover it. -/
def osWrite (f : IndexFile) (buf : Nat → Nat) (amt off : Nat) : IndexFile :=
  { f with
    bytes := fun a => if off ≤ a ∧ a < off + amt then buf (a - off) else f.bytes a,
    actualSize := max f.actualSize (off + amt) }

/-- Embeds diskAnnWriteHeader (vector_diskann.c:146-154): writes the 32-byte
header struct at offset 0 (kept at field level; node blocks never overlap
the header region in any embedded scenario). -/
def diskAnnWriteHeader (f : IndexFile) (h : DiskAnnHeader) : IndexFile :=
  { f with headerOnDisk := h, actualSize := max f.actualSize 32 }

/-- Embeds diskAnnWriteVector (vector_diskann.c:197-251).  rcOsWrite is the
result of the one sqlite3OsWrite call (SQLITE_OK = 0 meaning success); the
function returns that result code either way.  The buffer is written at
pIndex->nFileSize (the offset parameter is unused in the C, and kept here
unused for fidelity). -/
def diskAnnWriteVector (f : IndexFile) (pIndex : DiskAnnIndex) (pVec : List Nat)
    (id : Nat) (aNeighbours : List (List Nat)) (aNeighbourMetadata : List (Nat × Nat))
    (_offset : Nat) (nBlockSize : Nat) (rcOsWrite : Nat) : IndexFile × Nat :=
  if rcOsWrite = 0 then
    (osWrite f (diskAnnBlockData pIndex pVec id aNeighbours aNeighbourMetadata)
      nBlockSize pIndex.nFileSize, rcOsWrite)
  else (f, rcOsWrite)

/-- Embeds diskAnnReadVector (vector_diskann.c:156-195).  Offset 0 returns
NULL; a read past the true end of file short-reads, sqlite3OsRead fails and
the function returns NULL.  (Its assert offset < pIndex->nFileSize is
compiled out under NDEBUG; the embedding follows the release build, and the
violation of that assert after the first insert is recorded with the
claims.)  vectorDeserializeFromBlob is not under src/ and follows the spec
blob layout: 4-byte little-endian count, then the f32 bit patterns; the id
is read from the 8 bytes after the blob. -/
def diskAnnReadVector (f : IndexFile) (pIndex : DiskAnnIndex) (offset : Nat) :
    Option VectorNode :=
  if offset = 0 then none
  else if f.actualSize < offset + DISKANN_BLOCK_SIZE then none
  else
    let block : Nat → Nat := fun i => f.bytes (offset + i)
    let n := block 3 * 16777216 + block 2 * 65536 + block 1 * 256 + block 0
    let elems := (List.range n).map fun j =>
      block (4 + 4 * j) + block (4 + 4 * j + 1) * 256 + block (4 + 4 * j + 2) * 65536 +
        block (4 + 4 * j + 3) * 16777216
    let i := 4 + 4 * n
    some
      { vec := elems,
        id := block i + block (i + 1) * 256 + block (i + 2) * 65536 +
          block (i + 3) * 16777216 + block (i + 4) * 4294967296 +
          block (i + 5) * 1099511627776 + block (i + 6) * 281474976710656 +
          block (i + 7) * 72057594037927936,
        offset := offset }

/-- Embeds the visited list diskAnnSearch leaves in the SearchContext
(vector_diskann.c:312-330).  The loop adds exactly one candidate, the entry
node (expanding a candidate's neighbours is an unimplemented TODO at line
326), selects it as the unique unvisited candidate - findClosestCandidate
takes the pNode == NULL branch, so no distance is ever computed - marks it
visited and terminates with nUnvisited = 0.  The visited list is therefore
the entry node alone when it is readable, and empty otherwise (entry offset
0 or failed read). -/
def diskAnnSearchVisited (f : IndexFile) (pIndex : DiskAnnIndex) : List VectorNode :=
  match diskAnnReadVector f pIndex pIndex.header.entryVectorOffset with
  | none => []
  | some start => [start]

/-- Embeds diskAnnInsert (vector_diskann.c:339-382).  The visited list of
the search becomes the neighbour array; the block is written at the cached
file size; then pIndex->nFileSize += diskAnnWriteVector(...), i.e. the
RESULT CODE of the write (0 on success) is added to the cached file size;
finally, if the cached entry offset is 0 it is set to the offset just used
and the header is rewritten (its own result code is discarded).  The
function returns SQLITE_OK on every path past the allocations.  rcOsWrite
feeds the block write inside diskAnnWriteVector. -/
def diskAnnInsert (f : IndexFile) (pIndex : DiskAnnIndex) (pVec : List Nat) (id : Nat)
    (rcOsWrite : Nat) : IndexFile × DiskAnnIndex × Nat :=
  let visited := diskAnnSearchVisited f pIndex
  let aNeighbours := visited.map fun nd => nd.vec
  let aNeighbourMetadata := visited.map fun nd => (nd.id, nd.offset)
  let nBlockSize := blockSize pIndex
  let offset := pIndex.nFileSize
  let wr := diskAnnWriteVector f pIndex pVec id aNeighbours aNeighbourMetadata offset
    nBlockSize rcOsWrite
  let pIndex2 : DiskAnnIndex := { pIndex with nFileSize := pIndex.nFileSize + wr.2 }
  if pIndex2.header.entryVectorOffset = 0 then
    let pIndex3 : DiskAnnIndex :=
      { pIndex2 with header := { pIndex2.header with entryVectorOffset := offset } }
    (diskAnnWriteHeader wr.1 pIndex3.header, pIndex3, SQLITE_OK)
  else (wr.1, pIndex2, SQLITE_OK)

/-- Embeds diskAnnOpenIndex (vector_diskann.c:401-448).  uninit stands for
the indeterminate contents of the freshly malloc-ed DiskAnnIndex: on the
zero-size branch the C assigns nMagic, nBlockSize, nVectorType, nVectorDims
and similarityFunction but never entryVectorOffset or firstFreeOffset, so
those two fields of the written header keep whatever the allocation
contained.  On the non-empty branch the header is read back with no
validation whatsoever.  The OS-call failure paths (open, file-size, read,
write) depend only on I/O results, not on the header contents, and are
modelled as succeeding. -/
def diskAnnOpenIndex (f : IndexFile) (uninit : DiskAnnHeader) :
    IndexFile × DiskAnnIndex :=
  if f.actualSize = 0 then
    let h : DiskAnnHeader :=
      { uninit with
        nMagic := 0x4e4e416b736944,
        nBlockSize := DISKANN_BLOCK_SIZE >>> DISKANN_BLOCK_SIZE_SHIFT,
        nVectorType := VECTOR_TYPE_F32,
        nVectorDims := 3,
        similarityFunction := 0 }
    let f2 := diskAnnWriteHeader f h
    (f2, { header := h, nFileSize := h.nBlockSize <<< DISKANN_BLOCK_SIZE_SHIFT })
  else (f, { header := f.headerOnDisk, nFileSize := f.actualSize })

/-- Modelled from the spec: observation helper for the stored neighbour
count of the block at a given offset (2 little-endian bytes after the vector
blob and the 8 id bytes); src/ has no reader for it - the search never
expands neighbours - so the layout is the one diskAnnWriteVector writes. -/
def readNeighbourCountAt (f : IndexFile) (pIndex : DiskAnnIndex) (off : Nat) : Nat :=
  f.bytes (off + vectorSize pIndex + 8) + f.bytes (off + vectorSize pIndex + 9) * 256

/-- Modelled from the spec: observation helper for the i-th stored neighbour
metadata record (id, offset) of the block at a given offset, at the region
diskAnnWriteVector uses (neighbourMetadataOffset). -/
def readNeighbourMetadataAt (f : IndexFile) (pIndex : DiskAnnIndex) (off i : Nat) :
    Nat × Nat :=
  let base := off + neighbourMetadataOffset pIndex + 16 * i
  (f.bytes base + f.bytes (base + 1) * 256 + f.bytes (base + 2) * 65536 +
      f.bytes (base + 3) * 16777216 + f.bytes (base + 4) * 4294967296 +
      f.bytes (base + 5) * 1099511627776 + f.bytes (base + 6) * 281474976710656 +
      f.bytes (base + 7) * 72057594037927936,
    f.bytes (base + 8) + f.bytes (base + 9) * 256 + f.bytes (base + 10) * 65536 +
      f.bytes (base + 11) * 16777216 + f.bytes (base + 12) * 4294967296 +
      f.bytes (base + 13) * 1099511627776 + f.bytes (base + 14) * 281474976710656 +
      f.bytes (base + 15) * 72057594037927936)

/-! ## Concrete scenario: a fresh index and the first two inserts
(spec scenarios S3, S4, S5).  All I/O succeeds (result code 0); the
indeterminate malloc contents are taken as all zero, the benign case. -/

/-- An all-zero header value: used both as the empty file placeholder and as
the benign (all-zero) malloc contents. -/
def zeroHeader : DiskAnnHeader :=
  { nMagic := 0, nBlockSize := 0, nVectorType := 0, nVectorDims := 0,
    similarityFunction := 0, entryVectorOffset := 0, firstFreeOffset := 0 }

/-- A nonexistent sidecar file: zero size. -/
def emptyFile : IndexFile :=
  { headerOnDisk := zeroHeader, bytes := fun _ => 0, actualSize := 0 }

/-- The f32 bit patterns of [1.0, 0.0, 0.0]. -/
def vecA : List Nat := [0x3f800000, 0, 0]

/-- The f32 bit patterns of [0.0, 1.0, 0.0]. -/
def vecB : List Nat := [0, 0x3f800000, 0]

/-- State after opening the fresh index (benign zeroed malloc contents). -/
def openSt : IndexFile := (diskAnnOpenIndex emptyFile zeroHeader).1

/-- Handle after opening the fresh index. -/
def openIdx : DiskAnnIndex := (diskAnnOpenIndex emptyFile zeroHeader).2

/-- First insert: vector [1,0,0], rowid 7, I/O succeeding. -/
def ins1 : IndexFile × DiskAnnIndex × Nat := diskAnnInsert openSt openIdx vecA 7 0

def st1 : IndexFile := ins1.1

def idx1 : DiskAnnIndex := ins1.2.1

/-- Second insert: vector [0,1,0], rowid 8, I/O succeeding. -/
def ins2 : IndexFile × DiskAnnIndex × Nat := diskAnnInsert st1 idx1 vecB 8 0

def st2 : IndexFile := ins2.1

def idx2 : DiskAnnIndex := ins2.2.1

/-- First insert attempted with the block write failing with SQLITE_IOERR. -/
def ins1IoErr : IndexFile × DiskAnnIndex × Nat :=
  diskAnnInsert openSt openIdx vecA 7 SQLITE_IOERR

/-- A non-empty index file whose stored header has a bad magic number and an
unknown vector type. -/
def badMagicFile : IndexFile :=
  { headerOnDisk :=
      { nMagic := 0, nBlockSize := 8, nVectorType := 99, nVectorDims := 3,
        similarityFunction := 0, entryVectorOffset := 0, firstFreeOffset := 0 },
    bytes := fun _ => 0, actualSize := 4096 }

/-- Malloc contents with every header field nonzero: a representative of the
indeterminate memory the C never initializes. -/
def garbageHeader : DiskAnnHeader :=
  { nMagic := 1, nBlockSize := 1, nVectorType := 1, nVectorDims := 1,
    similarityFunction := 1, entryVectorOffset := 1, firstFreeOffset := 1 }

/-- An index handle whose header declares dimension 1, block multiplier 8:
reachable by opening a non-empty file storing that header (open performs no
validation). -/
def idxDims1 : DiskAnnIndex :=
  { header :=
      { nMagic := 0x4e4e416b736944, nBlockSize := 8, nVectorType := 0, nVectorDims := 1,
        similarityFunction := 0, entryVectorOffset := 0, firstFreeOffset := 0 },
    nFileSize := 4096 }

/-! ## Helper lemmas -/

/-- Little-endian u32 round trip through the byte codec. -/
theorem deserializeU32_serializeU32 (n : Nat) (h : n < 4294967296) (rest : List Nat) :
    deserializeU32 (serializeU32 n ++ rest) = n := by
  show n / 16777216 % 256 * 16777216 + n / 65536 % 256 * 65536 + n / 256 % 256 * 256 +
      n % 256 = n
  omega

/-- Little-endian f32 bit-pattern round trip through the byte codec. -/
theorem deserializeF32_serializeF32 (x : Nat) (h : x < 4294967296) (rest : List Nat) :
    deserializeF32 (serializeF32 x ++ rest) = x := by
  show x % 256 + x / 256 % 256 * 256 + x / 65536 % 256 * 65536 +
      x / 16777216 % 256 * 16777216 = x
  omega

/-- Dropping 4i bytes from the concatenated element encodings lands on the
encoding of the i-th element onward. -/
theorem flatten_serializeF32_drop (v : List Nat) (i : Nat) :
    ((v.map serializeF32).flatten).drop (4 * i) = ((v.drop i).map serializeF32).flatten := by
  induction v generalizing i with
  | nil => simp
  | cons x xs ih =>
    cases i with
    | zero => simp
    | succ n =>
      have h4 : 4 * (n + 1) = 4 + 4 * n := by ring
      rw [List.map_cons, List.flatten_cons, h4, ← List.drop_drop]
      have hdrop : (serializeF32 x ++ (xs.map serializeF32).flatten).drop 4 =
          (xs.map serializeF32).flatten := rfl
      rw [hdrop, ih n, List.drop_succ_cons]

/-- Unfolding step of the text-parse loop on an ordinary element character. -/
theorem parseTextLoop_step1 (l : List Char) (elems : List Nat) :
    parseTextLoop ('1' :: l) [] elems = parseTextLoop l ['1'] elems := rfl

/-- Unfolding step of the text-parse loop on the comma closing the pending
element "1": the element is stored first, then the dimension limit is
checked against the grown count. -/
theorem parseTextLoop_step2 (l : List Char) (elems : List Nat) :
    parseTextLoop (',' :: l) ['1'] elems =
      if MAX_VECTOR_SZ ≤ (elems ++ [0]).length then ParseResult.errSilent ParseErr.tooLarge
      else parseTextLoop l [] (elems ++ [0]) := rfl

/-- Unfolding of vectorParseText past the opening bracket. -/
theorem vectorParseText_bracket (t : List Char) :
    vectorParseText ('[' :: t) = parseTextLoop t [] [] := rfl

/-- Feeding k copies of the element text "1," into the parse loop hits the
vecidx >= MAX_VECTOR_SZ check as soon as the stored count reaches 16000,
whatever follows. -/
theorem parseTextLoop_ones :
    ∀ (k : Nat) (elems : List Nat) (rest : List Char),
      elems.length < 16000 → 16000 ≤ elems.length + k →
      parseTextLoop ((List.replicate k ['1', ',']).flatten ++ rest) [] elems =
        ParseResult.errSilent ParseErr.tooLarge := by
  intro k
  induction k with
  | zero =>
    intro elems rest h1 h2
    exact absurd h2 (by omega)
  | succ n ih =>
    intro elems rest h1 h2
    show parseTextLoop ('1' :: ',' :: ((List.replicate n ['1', ',']).flatten ++ rest)) [] elems
      = ParseResult.errSilent ParseErr.tooLarge
    rw [parseTextLoop_step1, parseTextLoop_step2]
    have hL : (elems ++ [0]).length = elems.length + 1 := by simp
    by_cases hc : MAX_VECTOR_SZ ≤ (elems ++ [0]).length
    · rw [if_pos hc]
    · rw [if_neg hc]
      have hc2 : (elems ++ [0]).length < 16000 := by
        have : ¬ 16000 ≤ (elems ++ [0]).length := hc
        omega
      exact ih (elems ++ [0]) rest hc2 (by omega)

/-! ## The claims -/

/-- C5 (confirmed): for every vector of f32 bit patterns with
1 <= dim <= 16000, parsing the blob produced by vectorSerialize yields the
vector back element for element, and the first four bytes of the blob are
the dimension encoded little-endian (serializeU32). -/
theorem c5_blob_roundtrip (v : List Nat) (hb : ∀ x ∈ v, x < 4294967296)
    (h1 : 1 ≤ v.length) (h2 : v.length ≤ 16000) :
    vectorParseBlob (vectorSerialize v) = ParseResult.ok v ∧
      (vectorSerialize v).take 4 = serializeU32 v.length := by
  have hlen : deserializeU32 (vectorSerialize v) = v.length := by
    have hv32 : v.length < 4294967296 := by omega
    exact deserializeU32_serializeU32 v.length hv32 _
  constructor
  · unfold vectorParseBlob
    rw [hlen]
    rw [if_neg (by unfold MAX_VECTOR_SZ; omega)]
    congr 1
    apply List.ext_getElem
    · simp
    · intro i hi1 hi2
      simp only [List.getElem_map, List.getElem_range]
      have hiv : i < v.length := hi2
      rw [← List.drop_drop]
      have e2 : (vectorSerialize v).drop 4 = (v.map serializeF32).flatten := by
        unfold vectorSerialize serializeU32
        rfl
      rw [e2, flatten_serializeF32_drop]
      rw [List.drop_eq_getElem_cons hiv]
      rw [List.map_cons, List.flatten_cons]
      exact deserializeF32_serializeF32 v[i] (hb _ (List.getElem_mem hiv)) _
  · unfold vectorSerialize serializeU32
    rfl

/-- Witness for C5 at the concrete vector [1.0, 0.0, 2.0] (bit patterns). -/
theorem c5_blob_roundtrip_witness :
    vectorParseBlob (vectorSerialize [0x3f800000, 0, 0x40000000]) =
        ParseResult.ok [0x3f800000, 0, 0x40000000] ∧
      (vectorSerialize [0x3f800000, 0, 0x40000000]).take 4 = serializeU32 3 :=
  c5_blob_roundtrip [0x3f800000, 0, 0x40000000] (by decide) (by decide) (by decide)

/-- C1 (code bug): two successful inserts into the freshly opened index.
diskAnnInsert adds the RESULT CODE of diskAnnWriteVector (SQLITE_OK = 0) to
the cached file size instead of the bytes written, so nFileSize never
advances past the initial 4096; consequently the second insert writes its
block at offset 4096 again and the true file stops growing at 8192.  The
claim would require nFileSize = 8192 after one insert and file size 12288
after two. -/
theorem c1_insert_file_size :
    ins1.2.2 = SQLITE_OK ∧ ins2.2.2 = SQLITE_OK ∧
      idx1.nFileSize = 4096 ∧ idx2.nFileSize = 4096 ∧
      st1.actualSize = 8192 ∧ st2.actualSize = 8192 ∧
      ¬ idx1.nFileSize = 2 * 4096 ∧ ¬ st2.actualSize = 3 * 4096 := by
  decide

/-- C2 (code bug): opening a zero-size file writes the expected magic,
block-size multiplier 8, vector type F32 and sets the cached file size to
4096, but diskAnnOpenIndex never assigns header.entryVectorOffset or
header.firstFreeOffset before writing the header, so the written header
keeps the indeterminate malloc contents (here the representative value 1)
instead of the 0 the claim states. -/
theorem c2_open_fresh_header :
    (diskAnnOpenIndex emptyFile garbageHeader).1.headerOnDisk.nMagic = 0x4e4e416b736944 ∧
      (diskAnnOpenIndex emptyFile garbageHeader).1.headerOnDisk.nBlockSize = 8 ∧
      (diskAnnOpenIndex emptyFile garbageHeader).1.headerOnDisk.nVectorType = VECTOR_TYPE_F32 ∧
      (diskAnnOpenIndex emptyFile garbageHeader).2.nFileSize = 4096 ∧
      (diskAnnOpenIndex emptyFile garbageHeader).1.headerOnDisk.entryVectorOffset = 1 ∧
      (diskAnnOpenIndex emptyFile garbageHeader).1.headerOnDisk.firstFreeOffset = 1 := by
  decide

/-- C3 (code bug): after the second insert the block at offset 4096 holds
the NEW node (id 8, vector [0,1,0]) with one neighbour record referencing
(id 7, offset 4096) - the second block overwrote the first because the
cached file size never advanced - no block exists at offset 8192, and the
back-link loop of diskAnnInsert is an empty TODO, so the first node was
never rewritten with a reference to (id 8, offset 8192) as the claim
states. -/
theorem c3_second_insert_overwrites :
    diskAnnReadVector st2 idx2 4096 = some { vec := vecB, id := 8, offset := 4096 } ∧
      readNeighbourCountAt st2 idx2 4096 = 1 ∧
      readNeighbourMetadataAt st2 idx2 4096 0 = (7, 4096) ∧
      diskAnnReadVector st2 idx2 8192 = none ∧
      readNeighbourCountAt st1 idx1 4096 = 0 := by
  decide

/-- C4 counterexample: opening a non-empty index file whose stored header
has magic 0 and vector type 99 does NOT fail; it returns a handle carrying
that header unchanged. -/
theorem c4_counterexample :
    (diskAnnOpenIndex badMagicFile zeroHeader).2.header.nMagic = 0 ∧
      (diskAnnOpenIndex badMagicFile zeroHeader).2.header.nVectorType = 99 ∧
      (diskAnnOpenIndex badMagicFile zeroHeader).2.nFileSize = 4096 := by
  decide

/-- C4 (corrected): on a non-empty index file, diskAnnOpenIndex reads the
header back and returns a usable handle WITHOUT any validation of the magic
number or the vector type; only OS-call failures can make the open fail. -/
theorem c4_open_reads_without_validation (f : IndexFile) (u : DiskAnnHeader)
    (h : f.actualSize ≠ 0) :
    diskAnnOpenIndex f u = (f, { header := f.headerOnDisk, nFileSize := f.actualSize }) := by
  unfold diskAnnOpenIndex
  rw [if_neg h]

/-- Witness for the corrected C4 at the bad-magic file. -/
theorem c4_open_reads_without_validation_witness :
    diskAnnOpenIndex badMagicFile zeroHeader =
      (badMagicFile, ⟨badMagicFile.headerOnDisk, badMagicFile.actualSize⟩) :=
  c4_open_reads_without_validation badMagicFile zeroHeader (by decide)

/-- C7 (code bug): neighbourMetadataOffset accounts for the 8 id bytes but
NOT for the 2 neighbour-count bytes its own writer (diskAnnWriteVector) lays
down before the neighbour blobs.  At the header the code itself creates
(block multiplier 8, dims 3) the code yields M = 127 and offset 2056 where
the claim formula yields 2058; at a stored header with dims 1 even M
differs: code 170 and offset 1376, claim 169 and offset 1370. -/
theorem c7_metadata_offset_bug :
    maxNeighbours openIdx = 127 ∧ neighbourMetadataOffset openIdx = 2056 ∧
      spec_maxNeighbors openIdx = 127 ∧ spec_neighbourMetadataOffset openIdx = 2058 ∧
      maxNeighbours idxDims1 = 170 ∧ neighbourMetadataOffset idxDims1 = 1376 ∧
      spec_maxNeighbors idxDims1 = 169 ∧ spec_neighbourMetadataOffset idxDims1 = 1370 ∧
      ¬ neighbourMetadataOffset openIdx = spec_neighbourMetadataOffset openIdx := by
  decide

/-- C8 counterexample: vectorParseText on the empty text does NOT return an
empty vector without error; the empty text does not start with the opening
bracket, so the goto error path reports a failure. -/
theorem c8_counterexample :
    vectorParseText [] = ParseResult.errReported ParseErr.missingOpenBracket ∧
      ¬ vectorParseText [] = ParseResult.ok [] := by
  decide

/-- C8 (corrected): parseText("") fails with the missing-bracket error
(instead of returning dimension 0 without error as claimed); "1,2,3" fails
for the missing opening bracket; "[1,2" fails for the missing closing
bracket; and a text vector of 16001 elements fails with the dimension-limit
error. -/
theorem c8_parse_rejections :
    vectorParseText [] = ParseResult.errReported ParseErr.missingOpenBracket ∧
      vectorParseText ['1', ',', '2', ',', '3'] =
        ParseResult.errReported ParseErr.missingOpenBracket ∧
      vectorParseText ['[', '1', ',', '2'] =
        ParseResult.errSilent ParseErr.missingCloseBracket ∧
      vectorParseText ('[' :: ((List.replicate 16000 ['1', ',']).flatten ++ ['1', ']'])) =
        ParseResult.errSilent ParseErr.tooLarge := by
  refine ⟨by decide, by decide, by decide, ?_⟩
  rw [vectorParseText_bracket]
  exact parseTextLoop_ones 16000 [] ['1', ']'] (by decide) (by decide)

/-- C9 (code bug): a malformed-number parse failure only formats its
diagnostic into a local buffer and returns -1 without calling
sqlite3_result_error (errSilent); and an insert whose block write fails with
SQLITE_IOERR still returns SQLITE_OK - the error code is added to the
cached file size (4096 + 10) and otherwise discarded. -/
theorem c9_errors_not_surfaced :
    vectorParseText ['[', 'a', 'b', 'c', ']'] =
        ParseResult.errSilent ParseErr.invalidNumber ∧
      ins1IoErr.2.2 = SQLITE_OK ∧
      ¬ ins1IoErr.2.2 = SQLITE_IOERR ∧
      ins1IoErr.2.1.nFileSize = 4096 + SQLITE_IOERR := by
  decide

/-- C10 (code bug): vector("[]") parses to dimension 0 and sets neither a
blob nor an error (SQL NULL), as the claim states; but a blob is NOT
produced only for strictly positive parsed dimension: on a parse failure
such as "[abc]" the size_t return (size_t)(-1) passes the > 0 test and the
function serializes the still-empty vector, producing the blob
00 00 00 00. -/
theorem c10_vectorFunc_zero_dim :
    vectorFunc (SqlValue.text ['[', ']']) = FuncResult.null ∧
      vectorFunc (SqlValue.text ['[', 'a', 'b', 'c', ']']) =
        FuncResult.blob [0, 0, 0, 0] := by
  decide
